import Mathlib

/-!
Shallow embedding of the `estream-marketplace` industrial gateway
(`src/runtime/industrial/src/`) for checking the natural-language
specification against the code.

Conventions of the embedding:
- Rust machine integers become `Nat` (with explicit `% 2^w` where wrapping
  matters) or `Int` for signed views.
- Rust `f64`/`f32` values become `ℚ`. Every concrete computation proved
  below stays in a range where the Rust floating-point arithmetic is exact
  (small integers, halves and tenths times small integers), so the rational
  model agrees with the source on those inputs.
- `HashMap` state becomes association lists; only lookup/insert/remove
  semantics are used.
- Fallible Rust functions returning `Result` become `Except`.
- Wall-clock reads (`timestamp_ns()`) become explicit parameters.
-/

-- ============================================================================
-- Small helpers
-- ============================================================================

/-- The nonnegative part of a rational truncated to a natural number:
`Rat.floor` followed by `Int.toNat`. On nonnegative inputs the floor is
the truncation toward zero that Rust's `as u32` float cast performs, and
on negative inputs `toNat` yields 0, exactly the cast's saturation
(the `u32::MAX` saturation is applied separately in `u32OfRat`). -/
def ratTruncToNat (q : ℚ) : Nat := (Rat.floor q).toNat

/-- `q as u32` for a Rust float cast: truncate toward zero, saturate into
the `u32` range. -/
def u32OfRat (q : ℚ) : Nat := min (ratTruncToNat q) 4294967295

/-- Iteration helper with a definitional successor step
`iterateFn f (n+1) a = f (iterateFn f n a)`. -/
def iterateFn (f : α → α) : Nat → α → α
  | 0, a => a
  | n + 1, a => f (iterateFn f n a)

/-- Lowercase hex digit, the alphabet used by `hex::encode`. -/
def hexDigitChar (n : Nat) : Char :=
  if n < 10 then Char.ofNat (48 + n) else Char.ofNat (87 + n)

/-- `hex::encode` over a byte list: two lowercase hex characters per byte,
high nibble first. -/
def hexEncode (bytes : List Nat) : String :=
  String.mk ((bytes.map (fun b => [hexDigitChar ((b % 256) / 16), hexDigitChar (b % 16)])).flatten)

-- ============================================================================
-- types.rs
-- ============================================================================

/-- `DataType` from `types.rs`. -/
inductive DataType where
  | uint16
  | int16
  | uint32
  | int32
  | float32
  | float64
  | boolean
  | string
deriving DecidableEq

/-- `DataType::word_count` from `types.rs`. -/
def DataType.word_count : DataType → Nat
  | .uint16 | .int16 | .boolean => 1
  | .uint32 | .int32 | .float32 => 2
  | .float64 => 4
  | .string => 16

/-- `RegisterType` from `types.rs`. -/
inductive RegisterType where
  | holding
  | input
  | coil
  | discrete
deriving DecidableEq

/-- `RegisterType::read_function_code` from `types.rs`. -/
def RegisterType.read_function_code : RegisterType → Nat
  | .holding => 0x03
  | .input => 0x04
  | .coil => 0x01
  | .discrete => 0x02

/-- `AlarmCondition` from `types.rs`. -/
inductive AlarmCondition where
  | greaterThan
  | lessThan
  | equal
  | notEqual
  | greaterOrEqual
  | lessOrEqual
  | between
  | outside
deriving DecidableEq

/-- `AlarmSeverity` from `types.rs`. -/
inductive AlarmSeverity where
  | info
  | warning
  | critical
deriving DecidableEq

/-- `AlarmState` from `types.rs`. -/
inductive AlarmState where
  | normal
  | active
  | acknowledged
  | shelved
deriving DecidableEq

/-- `Quality` from `types.rs` (value events carry one of these codes). -/
inductive Quality where
  | good
  | goodLocalOverride
  | uncertain
  | uncertainLastUsable
  | bad
  | badConfigError
  | badNotConnected
  | badDeviceFailure
  | badSensorFailure
  | badCommFailure
  | badOutOfService
deriving DecidableEq

/-- `RegisterValue` from `types.rs`. The `F32`/`F64`/`String` variants are
omitted: `StreamEmitter::convert_raw` (the only constructor reached by
`process_raw`) can only produce `U16`, `I16` and `Bool`, and the float
variants' NaN semantics have no counterpart in `ℚ`. -/
inductive RegisterValue where
  | u16 (v : Nat)
  | i16 (v : Int)
  | u32 (v : Nat)
  | i32 (v : Int)
  | bool (v : Bool)
deriving DecidableEq

/-- `RegisterValue::as_f64` from `types.rs`, on the embedded variants. -/
def RegisterValue.as_f64 : RegisterValue → ℚ
  | .u16 v => v
  | .i16 v => v
  | .u32 v => v
  | .i32 v => v
  | .bool v => if v then 1 else 0

/-- `RegisterValue::scaled` from `types.rs`: `value * scale + offset`. -/
def RegisterValue.scaled (v : RegisterValue) (scale offset : ℚ) : ℚ :=
  v.as_f64 * scale + offset

-- ============================================================================
-- error.rs (the variants the embedded operations construct)
-- ============================================================================

/-- The `IndustrialError` variants reachable from the embedded operations. -/
inductive IndustrialError where
  | invalidConfig (reason : String)
  | deviceNotFound (device_id : String)
  | limitExceeded (limit_name : String) (max : Nat) (requested : Nat)
  | invalidResponse (reason : String)
  | transactionMismatch (expected : Nat) (actual : Nat)
deriving DecidableEq

-- ============================================================================
-- config.rs
-- ============================================================================

/-- `DeviceConfig` from `config.rs`. The IPv4 address is kept as four
octets. -/
structure DeviceConfig where
  device_id : String
  name : String
  ip_address : Nat × Nat × Nat × Nat
  port : Nat
  unit_id : Nat
  connect_timeout_ms : Nat
  response_timeout_ms : Nat
  retry_count : Nat
  retry_delay_ms : Nat
  enabled : Bool
deriving DecidableEq

/-- `impl Default for DeviceConfig` from `config.rs`. -/
def DeviceConfig.default : DeviceConfig where
  device_id := ""
  name := ""
  ip_address := (127, 0, 0, 1)
  port := 502
  unit_id := 1
  connect_timeout_ms := 5000
  response_timeout_ms := 1000
  retry_count := 3
  retry_delay_ms := 100
  enabled := true

/-- `WordOrder` from `config.rs`. -/
inductive WordOrder where
  | bigEndian
  | littleEndian
deriving DecidableEq

/-- `RegisterConfig` from `config.rs`. -/
structure RegisterConfig where
  device_id : String
  name : String
  address : Nat
  register_type : RegisterType
  data_type : DataType
  word_order : WordOrder
  scale : ℚ
  offset : ℚ
  unit : String
  poll_interval_ms : Nat
  emit_on_change : Bool
  change_threshold : ℚ
  priority : Nat
deriving DecidableEq

/-- `impl Default for RegisterConfig` from `config.rs`. -/
def RegisterConfig.default : RegisterConfig where
  device_id := ""
  name := ""
  address := 0
  register_type := .holding
  data_type := .uint16
  word_order := .bigEndian
  scale := 1
  offset := 0
  unit := ""
  poll_interval_ms := 1000
  emit_on_change := true
  change_threshold := 0
  priority := 1

/-- `AlarmConfig` from `config.rs`. -/
structure AlarmConfig where
  alarm_id : String
  register_name : String
  name : String
  condition : AlarmCondition
  threshold_lo : ℚ
  threshold_hi : ℚ
  hysteresis : ℚ
  debounce_ms : Nat
  severity : AlarmSeverity
  enabled : Bool
deriving DecidableEq

/-- `impl Default for AlarmConfig` from `config.rs`. -/
def AlarmConfig.default : AlarmConfig where
  alarm_id := ""
  register_name := ""
  name := ""
  condition := .greaterThan
  threshold_lo := 0
  threshold_hi := 0
  hysteresis := 0
  debounce_ms := 0
  severity := .warning
  enabled := true

/-- `StreamSightConfig` from `config.rs`. -/
structure StreamSightConfig where
  enabled : Bool
  severity_filter : Nat
  batch_interval_ms : Nat
  batch_size : Nat
  sampling_rate : ℚ
deriving DecidableEq

/-- `impl Default for StreamSightConfig` from `config.rs`. -/
def StreamSightConfig.default : StreamSightConfig where
  enabled := true
  severity_filter := 0
  batch_interval_ms := 100
  batch_size := 32
  sampling_rate := 1

/-- `GatewaySettings` from `config.rs`. -/
structure GatewaySettings where
  max_polls_per_second : Nat
  adaptive_scheduling : Bool
  backoff_factor : ℚ
  max_backoff_interval_ms : Nat
deriving DecidableEq

/-- `impl Default for GatewaySettings` from `config.rs`. -/
def GatewaySettings.default : GatewaySettings where
  max_polls_per_second := 100
  adaptive_scheduling := true
  backoff_factor := 3 / 2
  max_backoff_interval_ms := 60000

/-- `GatewayConfig` from `config.rs`. The gateway id is the 32-byte array
as a byte list. -/
structure GatewayConfig where
  gateway_id : List Nat
  name : String
  devices : List DeviceConfig
  registers : List RegisterConfig
  alarms : List AlarmConfig
  streamsight : StreamSightConfig
  settings : GatewaySettings
deriving DecidableEq

/-- The register-reference loop of `GatewayConfig::validate`: the first
register whose `device_id` matches no configured device aborts with
`DeviceNotFound`. -/
def checkRegisterDevices : List RegisterConfig → List DeviceConfig → Except IndustrialError Unit
  | [], _ => .ok ()
  | r :: rest, ds =>
    if ds.any (fun d => d.device_id == r.device_id) then checkRegisterDevices rest ds
    else .error (.deviceNotFound r.device_id)

/-- `GatewayConfig::validate` from `config.rs` lines 43-72: reject more than
10 devices, then more than 256 registers, then dangling register device
references. (The source has no check on `alarms`.) -/
def GatewayConfig.validate (c : GatewayConfig) : Except IndustrialError Unit :=
  if c.devices.length > 10 then
    .error (.limitExceeded ("devices") 10 c.devices.length)
  else if c.registers.length > 256 then
    .error (.limitExceeded ("registers") 256 c.registers.length)
  else
    checkRegisterDevices c.registers c.devices

/-- `GatewayConfigBuilder` from `config.rs`. -/
structure GatewayConfigBuilder where
  gateway_id : Option (List Nat)
  name : Option String
  devices : List DeviceConfig
  registers : List RegisterConfig
  alarms : List AlarmConfig
  streamsight : Option StreamSightConfig
  settings : Option GatewaySettings
deriving DecidableEq

/-- `GatewayConfigBuilder::build` from `config.rs` lines 131-148: require
`gateway_id`, fill defaults, then run `validate`. -/
def GatewayConfigBuilder.build (b : GatewayConfigBuilder) : Except IndustrialError GatewayConfig :=
  match b.gateway_id with
  | none => .error (.invalidConfig ("gateway_id is required"))
  | some gid =>
    let config : GatewayConfig :=
      { gateway_id := gid
        name := b.name.getD ("Industrial Gateway")
        devices := b.devices
        registers := b.registers
        alarms := b.alarms
        streamsight := b.streamsight.getD StreamSightConfig.default
        settings := b.settings.getD GatewaySettings.default }
    match config.validate with
    | .error e => .error e
    | .ok _ => .ok config

-- ============================================================================
-- scheduler/mod.rs : ScheduleEntry ordering
-- ============================================================================

/-- `ScheduleEntry` from `scheduler/mod.rs`. -/
structure ScheduleEntry where
  next_time_ns : Nat
  priority : Nat
  poll_id : Nat
deriving DecidableEq

/-- `impl Ord for ScheduleEntry` from `scheduler/mod.rs` lines 153-159:
`other.next_time_ns.cmp(&self.next_time_ns).then_with(|| self.priority.cmp(&other.priority))`. -/
def ScheduleEntry.cmp (a b : ScheduleEntry) : Ordering :=
  (compare b.next_time_ns a.next_time_ns).then (compare a.priority b.priority)

-- ============================================================================
-- emitter/mod.rs
-- ============================================================================

/-- `EmitterConfig` from `emitter/mod.rs`. -/
structure EmitterConfig where
  gateway_id : List Nat
  emit_on_change_only : Bool
  change_threshold : ℚ
  batch_enabled : Bool
  batch_size : Nat
  batch_timeout_ms : Nat
deriving DecidableEq

/-- `StreamEvent` from `emitter/mod.rs`. -/
structure StreamEvent where
  event_id : Nat
  device_id : String
  name : String
  value : ℚ
  unit : String
  quality : Quality
  source_timestamp_ns : Nat
  server_timestamp_ns : Nat
  topic : String
deriving DecidableEq

/-- `AlarmEventOutput` from `emitter/mod.rs`. -/
structure AlarmEventOutput where
  alarm_id : String
  name : String
  state : AlarmState
  severity : AlarmSeverity
  current_value : ℚ
  threshold_value : ℚ
  message : String
  timestamp_ns : Nat
deriving DecidableEq

/-- `RegisterMapping` from `emitter/mod.rs`. -/
structure RegisterMapping where
  config : RegisterConfig
  last_value : Option ℚ
  last_raw : Option (List Nat)
deriving DecidableEq

/-- `AlarmTracking` from `emitter/mod.rs`. -/
structure AlarmTracking where
  config : AlarmConfig
  state : AlarmState
  active_since_ns : Option Nat
  debounce_until_ns : Option Nat
deriving DecidableEq

/-- `condition_symbol` from `emitter/mod.rs`. -/
def conditionSymbol : AlarmCondition → String
  | .greaterThan => ">"
  | .lessThan => "<"
  | .equal => "=="
  | .notEqual => "!="
  | .greaterOrEqual => ">="
  | .lessOrEqual => "<="
  | .between => "between"
  | .outside => "outside"

/-- `f64::EPSILON` = 2^-52, used by the `Equal`/`NotEqual` conditions. -/
def f64Epsilon : ℚ := 1 / 4503599627370496

/-- Rendering of a rational for alarm messages. Rust formats the `f64`
with `Display`; on the integral values the claims exercise the two agree
(`81` ↦ `"81"`). -/
def ratStr (q : ℚ) : String :=
  if q.den = 1 then toString q.num else toString q.num ++ "/" ++ toString q.den

/-- `StreamEmitter::evaluate_condition` from `emitter/mod.rs` lines 349-373.
When the alarm is currently active the thresholds move inward by
`hysteresis` before the comparison. -/
def evaluateCondition (value : ℚ) (config : AlarmConfig) (currently_active : Bool) : Bool :=
  let threshold_hi := if currently_active then config.threshold_hi - config.hysteresis
    else config.threshold_hi
  let threshold_lo := if currently_active then config.threshold_lo + config.hysteresis
    else config.threshold_lo
  match config.condition with
  | .greaterThan => decide (value > threshold_hi)
  | .lessThan => decide (value < threshold_lo)
  | .equal => decide (|value - config.threshold_hi| < f64Epsilon)
  | .notEqual => decide (|value - config.threshold_hi| ≥ f64Epsilon)
  | .greaterOrEqual => decide (value ≥ threshold_hi)
  | .lessOrEqual => decide (value ≤ threshold_lo)
  | .between => decide (threshold_lo ≤ value ∧ value ≤ threshold_hi)
  | .outside => decide (value < threshold_lo ∨ value > threshold_hi)

/-- The body of the per-alarm loop of `StreamEmitter::evaluate_alarms`
(`emitter/mod.rs` lines 266-345): the three `continue` guards
(name mismatch, disabled, debounced), condition evaluation, and the
state-change branch that updates tracking and emits an alarm event. -/
def alarmLoopBody (register_name : String) (value : ℚ) (timestamp_ns : Nat)
    (tracking : AlarmTracking) : AlarmTracking × Option AlarmEventOutput :=
  if tracking.config.register_name ≠ register_name then (tracking, none)
  else if !tracking.config.enabled then (tracking, none)
  else if (match tracking.debounce_until_ns with
           | some until_ns => decide (timestamp_ns < until_ns)
           | none => false) then (tracking, none)
  else
    let condition_met := evaluateCondition value tracking.config (tracking.state == .active)
    let old_state := tracking.state
    let new_state := if condition_met then AlarmState.active else AlarmState.normal
    if old_state ≠ new_state then
      let debounce_until := if tracking.config.debounce_ms > 0 then
          some (timestamp_ns + tracking.config.debounce_ms * 1000000)
        else tracking.debounce_until_ns
      let active_since := if new_state == .active then some timestamp_ns
        else tracking.active_since_ns
      let threshold := match tracking.config.condition with
        | .lessThan | .lessOrEqual => tracking.config.threshold_lo
        | _ => tracking.config.threshold_hi
      let message := if new_state == .active then
          tracking.config.name ++ " triggered: " ++ ratStr value ++ " " ++
            conditionSymbol tracking.config.condition ++ " " ++ ratStr threshold
        else tracking.config.name ++ " cleared"
      let ev : AlarmEventOutput :=
        { alarm_id := tracking.config.alarm_id
          name := tracking.config.name
          state := new_state
          severity := tracking.config.severity
          current_value := value
          threshold_value := threshold
          message := message
          timestamp_ns := timestamp_ns }
      ({ tracking with
           state := new_state
           debounce_until_ns := debounce_until
           active_since_ns := active_since }, some ev)
    else (tracking, none)

/-- `StreamEmitter::evaluate_alarms` from `emitter/mod.rs` lines 263-346:
run the loop body over every tracked alarm, collecting emitted events in
iteration order. -/
def evaluateAlarms (register_name : String) (value : ℚ) (timestamp_ns : Nat) :
    List (String × AlarmTracking) → List (String × AlarmTracking) × List AlarmEventOutput
  | [] => ([], [])
  | (id, tr) :: rest =>
    let (tr', ev) := alarmLoopBody register_name value timestamp_ns tr
    let (rest', evs) := evaluateAlarms register_name value timestamp_ns rest
    ((id, tr') :: rest', match ev with | some e => e :: evs | none => evs)

/-- Feeding a sequence of values for one register through
`evaluate_alarms`, one call per value, timestamps increasing from `t`
(each sample gets the next nanosecond tick; with `debounce_ms = 0` the
exact spacing is irrelevant). Events are collected in order. -/
def feedAlarmValues (register_name : String) :
    List (String × AlarmTracking) → Nat → List ℚ →
    List (String × AlarmTracking) × List AlarmEventOutput
  | alarms, _, [] => (alarms, [])
  | alarms, t, v :: rest =>
    let out := evaluateAlarms register_name v t alarms
    let next := feedAlarmValues register_name out.1 (t + 1) rest
    (next.1, out.2 ++ next.2)

/-- `StreamEmitter::convert_raw` from `emitter/mod.rs` lines 242-250.
`raw` is a `u16` value (< 65536). -/
def convertRaw (raw : Nat) (config : RegisterConfig) : RegisterValue :=
  match config.data_type with
  | .uint16 => .u16 raw
  | .int16 => .i16 (if raw < 32768 then (raw : Int) else (raw : Int) - 65536)
  | .boolean => .bool (raw != 0)
  | _ => .u16 raw

/-- `StreamEmitter::generate_topic` from `emitter/mod.rs` lines 253-260:
`hex::encode(&self.config.gateway_id[..8])` — the first 8 bytes of the
gateway id, lowercase hex. -/
def generateTopic (cfg : EmitterConfig) (config : RegisterConfig) : String :=
  "lex://estream/sys/industrial/" ++ hexEncode (cfg.gateway_id.take 8) ++
    "/device/" ++ config.device_id ++ "/" ++ config.name

/-- In-place update of the register map entry under a key, the effect of
`registers.get_mut(&key)` mutation. -/
def assocUpdate [BEq κ] (k : κ) (v : α) (l : List (κ × α)) : List (κ × α) :=
  l.map (fun p => if p.1 == k then (p.1, v) else p)

/-- The mutable state of `StreamEmitter` that `process_raw` touches. -/
structure EmitterState where
  config : EmitterConfig
  registers : List ((String × Nat) × RegisterMapping)
  alarms : List (String × AlarmTracking)
  event_id : Nat
deriving DecidableEq

/-- The word loop of `StreamEmitter::process_raw` (`emitter/mod.rs` lines
183-236). For each word at `start_address + i` with a configured register:
convert, scale, change-detect; on emit, update `last_value`, allocate the
event id, build the event, evaluate alarms — and then `break` out of the
loop (line 233), so at most one value event is produced per call. When the
register is absent or change detection suppresses the emit, the loop
continues with the next word. -/
def processRawLoop (st : EmitterState) (device_id : String) (start_address : Nat)
    (quality : Quality) (source_ts server_ts : Nat) :
    Nat → List Nat → EmitterState × List StreamEvent × List AlarmEventOutput
  | _, [] => (st, [], [])
  | i, raw :: rest =>
    let address := (start_address + i) % 65536
    match List.lookup (device_id, address) st.registers with
    | none => processRawLoop st device_id start_address quality source_ts server_ts (i + 1) rest
    | some mapping =>
      let typed := convertRaw raw mapping.config
      let scaled := typed.scaled mapping.config.scale mapping.config.offset
      let should_emit := if mapping.config.emit_on_change then
          match mapping.last_value with
          | some last => decide (|scaled - last| > mapping.config.change_threshold)
          | none => true
        else true
      if should_emit then
        let mapping' := { mapping with last_value := some scaled }
        let registers' := assocUpdate (device_id, address) mapping' st.registers
        let event : StreamEvent :=
          { event_id := st.event_id
            device_id := device_id
            name := mapping.config.name
            value := scaled
            unit := mapping.config.unit
            quality := quality
            source_timestamp_ns := source_ts
            server_timestamp_ns := server_ts
            topic := generateTopic st.config mapping.config }
        let (alarms', alarm_events) := evaluateAlarms mapping.config.name scaled server_ts st.alarms
        ({ st with registers := registers', alarms := alarms', event_id := st.event_id + 1 },
         [event], alarm_events)
      else processRawLoop st device_id start_address quality source_ts server_ts (i + 1) rest

/-- `StreamEmitter::process_raw` from `emitter/mod.rs` lines 168-239.
`server_timestamp` stands for the `timestamp_ns()` wall-clock read. -/
def processRaw (st : EmitterState) (device_id : String) (start_address : Nat)
    (values : List Nat) (quality : Quality) (source_timestamp_ns : Option Nat)
    (server_timestamp : Nat) : EmitterState × List StreamEvent × List AlarmEventOutput :=
  processRawLoop st device_id start_address quality
    (source_timestamp_ns.getD server_timestamp) server_timestamp 0 values

-- ============================================================================
-- scheduler/mod.rs : poll items, feedback, trigger channel wiring
-- ============================================================================

/-- `SchedulerConfig` from `scheduler/mod.rs`. `backoff_factor` is the
`f32` factor as a rational. -/
structure SchedulerConfig where
  max_polls_per_second : Nat
  adaptive_enabled : Bool
  backoff_factor : ℚ
  max_backoff_interval_ms : Nat
deriving DecidableEq

/-- `impl Default for SchedulerConfig` from `scheduler/mod.rs`. -/
def SchedulerConfig.default : SchedulerConfig where
  max_polls_per_second := 100
  adaptive_enabled := true
  backoff_factor := 3 / 2
  max_backoff_interval_ms := 60000

/-- `PollItem` from `scheduler/mod.rs`. -/
structure PollItem where
  poll_id : Nat
  device_id : String
  name : String
  register_type : RegisterType
  address : Nat
  count : Nat
  base_interval_ms : Nat
  current_interval_ms : Nat
  priority : Nat
  enabled : Bool
deriving DecidableEq

/-- `PollStatus` from `scheduler/mod.rs`. -/
structure PollStatus where
  current_interval_ms : Nat
  last_poll_ns : Nat
  next_poll_ns : Nat
  polls_total : Nat
  polls_success : Nat
  polls_failed : Nat
  avg_latency_us : Nat
  consecutive_failures : Nat
deriving DecidableEq

/-- `PollComplete` from `scheduler/mod.rs`. -/
structure PollComplete where
  poll_id : Nat
  sequence_number : Nat
  success : Bool
  latency_us : Nat
deriving DecidableEq

/-- `PollTrigger` from `scheduler/mod.rs`. -/
structure PollTrigger where
  poll_id : Nat
  device_id : String
  register_type : RegisterType
  address : Nat
  count : Nat
  sequence_number : Nat
  scheduled_time_ns : Nat
  actual_time_ns : Nat
deriving DecidableEq

/-- The scheduler state that `poll_complete` reads and writes: the status
map and the items map, both keyed by poll id. -/
structure SchedulerMaps where
  status : List (Nat × PollStatus)
  items : List (Nat × PollItem)
deriving DecidableEq

/-- `PollScheduler::poll_complete` from `scheduler/mod.rs` lines 265-302.
If the poll id has no status entry, nothing changes. On success:
bump totals, clear consecutive failures, and (when adaptive) reset the
item's and status's current interval to the base interval. On failure:
bump totals, increment consecutive failures, and (when adaptive) set
`current_interval = min(max_backoff_interval, (current as f32 * factor) as u32)`
— the multiplication is by the *current* interval and the product is
truncated to `u32` each step. Finally the latency EMA is updated. -/
def pollComplete (config : SchedulerConfig) (st : SchedulerMaps)
    (complete : PollComplete) : SchedulerMaps :=
  match List.lookup complete.poll_id st.status with
  | none => st
  | some s =>
    let s := { s with polls_total := s.polls_total + 1 }
    let (s, items) :=
      if complete.success then
        let s := { s with polls_success := s.polls_success + 1, consecutive_failures := 0 }
        if config.adaptive_enabled then
          match List.lookup complete.poll_id st.items with
          | some item =>
            let item' := { item with current_interval_ms := item.base_interval_ms }
            ({ s with current_interval_ms := item.base_interval_ms },
             assocUpdate complete.poll_id item' st.items)
          | none => (s, st.items)
        else (s, st.items)
      else
        let s := { s with polls_failed := s.polls_failed + 1,
                          consecutive_failures := s.consecutive_failures + 1 }
        if config.adaptive_enabled then
          match List.lookup complete.poll_id st.items with
          | some item =>
            let new_interval := u32OfRat ((item.current_interval_ms : ℚ) * config.backoff_factor)
            let capped := min new_interval config.max_backoff_interval_ms
            let item' := { item with current_interval_ms := capped }
            ({ s with current_interval_ms := capped },
             assocUpdate complete.poll_id item' st.items)
          | none => (s, st.items)
        else (s, st.items)
    let s := { s with avg_latency_us := (s.avg_latency_us * 7 + complete.latency_us) / 8 }
    { status := assocUpdate complete.poll_id s st.status, items := items }

/-- The current interval recorded in the items map for a poll id. -/
def itemInterval (st : SchedulerMaps) (poll_id : Nat) : Option Nat :=
  (List.lookup poll_id st.items).map (fun i => i.current_interval_ms)

/-- The trigger-channel wiring of `PollScheduler::new` (`scheduler/mod.rs`
lines 189-206). Two mpsc channels exist, numbered in creation order:
channel 0 is `mpsc::channel(256)`, whose sender becomes the scheduler's
`trigger_tx` and whose receiver is stored inside the scheduler
(`trigger_rx`); channel 1 is `mpsc::channel(1)`, whose sender is dropped
immediately (`let (_, rx) = ...`) and whose receiver is what `new`
returns. -/
structure SchedulerChannels where
  trigger_tx_channel : Nat
  stored_rx_channel : Nat
  returned_rx_channel : Nat
deriving DecidableEq

/-- The channel ids produced by `PollScheduler::new`. -/
def pollSchedulerNew : SchedulerChannels :=
  { trigger_tx_channel := 0, stored_rx_channel := 0, returned_rx_channel := 1 }

/-- Every trigger `PollScheduler::run` sends goes through
`self.trigger_tx` (`scheduler/mod.rs` line 365), i.e. onto channel
`pollSchedulerNew.trigger_tx_channel`. -/
def runSentMessages (triggers : List PollTrigger) : List (Nat × PollTrigger) :=
  triggers.map (fun t => (pollSchedulerNew.trigger_tx_channel, t))

/-- The messages a receiver on channel `ch` can observe from a send log. -/
def messagesOn (ch : Nat) (msgs : List (Nat × PollTrigger)) : List PollTrigger :=
  (msgs.filter (fun m => m.1 == ch)).map (fun m => m.2)

-- ============================================================================
-- transport/tcp.rs : reconnect backoff delay
-- ============================================================================

/-- The sleep delay of `TcpClient::reconnect` (`transport/tcp.rs` line
181-182) after failed attempt number `attempts ≥ 1`, in milliseconds:
`self.config.reconnect_delay * (1.5f64.powi(attempts as i32 - 1) as u32)`
capped by `.min(Duration::from_secs(30))`. The power is computed in `f64`
and truncated to `u32` *before* the multiplication. (For the exponents
proved about below, `1.5^n` is exact in `f64`.) -/
def reconnectDelayMs (reconnect_delay_ms : Nat) (attempts : Nat) : Nat :=
  min (reconnect_delay_ms * u32OfRat ((3 / 2 : ℚ) ^ (attempts - 1))) 30000

-- ============================================================================
-- protocol/modbus.rs
-- ============================================================================

/-- `ModbusTcpClient::next_transaction_id` from `protocol/modbus.rs` lines
161-168, as a pure function of the `AtomicU16` counter: `fetch_add(1)`
returns the old value and wraps at 2^16; if that value is 0 a second
`fetch_add(1)` supplies the id. Returns `(id, new counter)`. -/
def nextTransactionId (counter : Nat) : Nat × Nat :=
  let id := counter % 65536
  let c1 := (counter + 1) % 65536
  if id = 0 then (c1, (c1 + 1) % 65536) else (id, c1)

/-- Insert a key into the in-flight table (`HashMap::insert` keyed by
transaction id; the stored `(request_id, timestamp)` payload plays no role
in the claims, so only keys are tracked). -/
def inflightInsert (k : Nat) (l : List Nat) : List Nat :=
  if k ∈ l then l else l ++ [k]

/-- Remove a key from the in-flight table (`HashMap::remove`). -/
def inflightRemove (k : Nat) (l : List Nat) : List Nat :=
  l.filter (fun x => x ≠ k)

/-- The transaction-id/in-flight state of one `ModbusTcpClient`. The
counter starts at 1 (`AtomicU16::new(1)`), the table empty. -/
structure ModbusClientState where
  transaction_id : Nat
  inflight : List Nat
deriving DecidableEq

/-- The in-flight effect of one serialised `ModbusTcpClient::read` call
(`protocol/modbus.rs` lines 208-260): allocate the next transaction id,
insert it into the in-flight table (line 229), then perform
`self.tcp.send_receive(...).await?`. When the transport succeeds the entry
is removed (line 249) before the response is parsed; when the transport
fails, the `?` returns early and the entry stays in the table — nothing
else in the module ever removes it. -/
def readInflightStep (transport_ok : Bool) (st : ModbusClientState) : ModbusClientState :=
  let (tid, counter') := nextTransactionId st.transaction_id
  let infl := inflightInsert tid st.inflight
  let infl := if transport_ok then inflightRemove tid infl else infl
  { transaction_id := counter', inflight := infl }

/-- `ModbusTcpClient::parse_mbap` from `protocol/modbus.rs` lines 185-205:
require at least 8 bytes, decode transaction id / protocol id / length /
unit id, require protocol id 0, and return `(transaction_id, unit_id, pdu)`
with `pdu = data[7..]`. (Indices 0..6 are in bounds once the length guard
has passed, so `getD` never takes its default.) -/
def parseMbap (data : List Nat) : Except IndustrialError (Nat × Nat × List Nat) :=
  if data.length < 8 then .error (.invalidResponse ("Response too short"))
  else
    let transaction_id := (data.getD 0 0) * 256 + data.getD 1 0
    let protocol_id := (data.getD 2 0) * 256 + data.getD 3 0
    let unit_id := data.getD 6 0
    if protocol_id ≠ 0 then
      .error (.invalidResponse ("Invalid protocol ID: " ++ toString protocol_id))
    else
      .ok (transaction_id, unit_id, data.drop 7)

/-- What the response-handling half of `ModbusTcpClient::read` does with a
received byte vector: an error return, a parsed response, or a panic from
an out-of-bounds slice index. -/
inductive ReadOutcome where
  | panic
  | err (e : IndustrialError)
  | ok (success : Bool) (values : List Nat) (exception_code : Option Nat)
deriving DecidableEq

/-- The word-extraction loop of `read` (`protocol/modbus.rs` lines
291-295): for `i in 0..byte_count/2`, index `pdu[2+2i]` and `pdu[2+2i+1]`.
An out-of-range index is a panic. -/
def readWordsLoop (pdu : List Nat) : Nat → Nat → Option (List Nat)
  | _, 0 => some []
  | i, n + 1 =>
    match pdu.get? (2 + 2 * i), pdu.get? (2 + 2 * i + 1) with
    | some hi, some lo =>
      (readWordsLoop pdu (i + 1) n).map (fun vs => (hi * 256 + lo) :: vs)
    | _, _ => none

/-- The response-parsing tail of `ModbusTcpClient::read` (`protocol/modbus.rs`
lines 250-316), applied to the bytes `send_receive` returned: `parse_mbap`,
the transaction-id check, then — with no further length guard — the
unconditional `pdu[0]` / `pdu[1]` indexing for the exception flag, the
exception code, and the byte count. An out-of-bounds index is `.panic`. -/
def readParseResponse (expected_tid : Nat) (response : List Nat) : ReadOutcome :=
  match parseMbap response with
  | .error e => .err e
  | .ok (resp_trans_id, _unit_id, pdu) =>
    if resp_trans_id ≠ expected_tid then
      .err (.transactionMismatch expected_tid resp_trans_id)
    else
      match pdu.get? 0 with
      | none => .panic
      | some fc =>
        if fc ≥ 128 then
          match pdu.get? 1 with
          | none => .panic
          | some exception_code => .ok false [] (some exception_code)
        else
          match pdu.get? 1 with
          | none => .panic
          | some byte_count =>
            match readWordsLoop pdu 0 (byte_count / 2) with
            | none => .panic
            | some values => .ok true values none

-- ============================================================================
-- Concrete scenario instances used by the claims
-- ============================================================================

/-- A uint16 register of device `"p"` with scale 0.1, offset 0, at the
given address (the S1 configuration of the spec). -/
def c1Register (addr : Nat) (nm : String) : RegisterConfig :=
  { RegisterConfig.default with
      device_id := "p", name := nm, address := addr,
      data_type := .uint16, scale := 1 / 10, offset := 0 }

/-- Emitter state with registers configured at addresses 100 and 101 of
device `"p"` and no alarms. -/
def c1State : EmitterState :=
  { config :=
      { gateway_id := List.replicate 32 0
        emit_on_change_only := false
        change_threshold := 0
        batch_enabled := true
        batch_size := 32
        batch_timeout_ms := 100 }
    registers :=
      [(("p", 100), { config := c1Register 100 "r100", last_value := none, last_raw := none }),
       (("p", 101), { config := c1Register 101 "r101", last_value := none, last_raw := none })]
    alarms := []
    event_id := 1 }

/-- The S4 alarm: GreaterThan, hi = 80, hysteresis = 2, debounce 0. -/
def c2Alarm : AlarmConfig :=
  { AlarmConfig.default with
      alarm_id := "high_temp", register_name := "temperature",
      name := "High Temperature", condition := .greaterThan,
      threshold_hi := 80, hysteresis := 2, debounce_ms := 0,
      severity := .warning, enabled := true }

/-- Fresh tracking state for the S4 alarm. -/
def c2Tracking : AlarmTracking :=
  { config := c2Alarm, state := .normal, active_since_ns := none, debounce_until_ns := none }

/-- The S4 alarm already Active (as after a sample above threshold). -/
def c2ActiveTracking : AlarmTracking :=
  { config := c2Alarm, state := .active, active_since_ns := some 1, debounce_until_ns := none }

/-- The S4 alarm after clearing again (active_since keeps its last value). -/
def c2ClearedTracking : AlarmTracking :=
  { config := c2Alarm, state := .normal, active_since_ns := some 1, debounce_until_ns := none }

/-- The alarm-event fields the S4 scenario constrains: state, current
value, threshold value, timestamp. -/
def alarmEventProj (e : AlarmEventOutput) : AlarmState × ℚ × ℚ × Nat :=
  (e.state, e.current_value, e.threshold_value, e.timestamp_ns)

/-- Feeding 75, 81, 79, 77 through `evaluate_alarms` for the S4 alarm. -/
def c2Run : List (String × AlarmTracking) × List AlarmEventOutput :=
  feedAlarmValues "temperature" [("high_temp", c2Tracking)] 0 [75, 81, 79, 77]

/-- Scheduler configuration of scenario S5: adaptive, factor 1.5, max
backoff 10000 ms. -/
def c3Config : SchedulerConfig :=
  { max_polls_per_second := 100, adaptive_enabled := true,
    backoff_factor := 3 / 2, max_backoff_interval_ms := 10000 }

/-- Poll item with base interval 1000 ms. -/
def c3Item : PollItem :=
  { poll_id := 1, device_id := "d", name := "r", register_type := .holding,
    address := 0, count := 1, base_interval_ms := 1000,
    current_interval_ms := 1000, priority := 1, enabled := true }

/-- Fresh status entry as `add_poll` initialises it (interval 1000 ms). -/
def c3Status : PollStatus :=
  { current_interval_ms := 1000, last_poll_ns := 0, next_poll_ns := 0,
    polls_total := 0, polls_success := 0, polls_failed := 0,
    avg_latency_us := 0, consecutive_failures := 0 }

/-- Scheduler maps holding the S5 poll item. -/
def c3State0 : SchedulerMaps := { status := [(1, c3Status)], items := [(1, c3Item)] }

/-- Failure feedback number `k` for poll 1. -/
def c3Fail (k : Nat) : PollComplete :=
  { poll_id := 1, sequence_number := k, success := false, latency_us := 0 }

/-- Success feedback for poll 1. -/
def c3Succ : PollComplete :=
  { poll_id := 1, sequence_number := 4, success := true, latency_us := 0 }

/-- States after one, two, three failures and a following success. -/
def c3State1 : SchedulerMaps := pollComplete c3Config c3State0 (c3Fail 1)

/-- State after the second failure. -/
def c3State2 : SchedulerMaps := pollComplete c3Config c3State1 (c3Fail 2)

/-- State after the third failure. -/
def c3State3 : SchedulerMaps := pollComplete c3Config c3State2 (c3Fail 3)

/-- State after the subsequent success. -/
def c3State4 : SchedulerMaps := pollComplete c3Config c3State3 c3Succ

/-- Poll item with base interval 5 ms (the C3 counterexample input). -/
def c3bItem : PollItem := { c3Item with base_interval_ms := 5, current_interval_ms := 5 }

/-- Scheduler maps holding the 5 ms item. -/
def c3bState0 : SchedulerMaps :=
  { status := [(1, { c3Status with current_interval_ms := 5 })], items := [(1, c3bItem)] }

/-- The 5 ms item after two consecutive failures. -/
def c3bState2 : SchedulerMaps :=
  pollComplete c3Config (pollComplete c3Config c3bState0 (c3Fail 1)) (c3Fail 2)

/-- A 32-byte gateway id with pairwise distinct bytes 0x00..0x1f. -/
def c4GatewayId : List Nat := List.range 32

/-- Emitter configuration carrying `c4GatewayId`. -/
def c4EmitterConfig : EmitterConfig :=
  { gateway_id := c4GatewayId, emit_on_change_only := false, change_threshold := 0,
    batch_enabled := true, batch_size := 32, batch_timeout_ms := 100 }

/-- Register `"t"` of device `"p"`. -/
def c4Register : RegisterConfig :=
  { RegisterConfig.default with device_id := "p", name := "t" }

/-- Spec-side lowercase hex digit table (`0123456789abcdef`). -/
def hexDigitSpec (n : Nat) : Char := ("0123456789abcdef").toList.getD n '0'

/-- Spec-worded lowercase hex encoding of a byte list, used on the
refinement side of the topic claim: each byte contributes its high then
low nibble as lowercase hex characters. -/
def hexLowercaseSpec (bytes : List Nat) : String :=
  String.mk (bytes.foldr (fun b acc => hexDigitSpec ((b % 256) / 16) :: hexDigitSpec (b % 16) :: acc) [])

/-- A gateway configuration with one device, no registers and 65 alarms. -/
def c5Config65 : GatewayConfig :=
  { gateway_id := List.replicate 32 0
    name := "g"
    devices := [{ DeviceConfig.default with device_id := "d" }]
    registers := []
    alarms := List.replicate 65 AlarmConfig.default
    streamsight := StreamSightConfig.default
    settings := GatewaySettings.default }

/-- A gateway configuration with 11 devices. -/
def c5Config11 : GatewayConfig :=
  { gateway_id := List.replicate 32 0
    name := "g"
    devices := List.replicate 11 DeviceConfig.default
    registers := []
    alarms := []
    streamsight := StreamSightConfig.default
    settings := GatewaySettings.default }

/-- Two schedule entries equal in time and priority, distinct poll ids. -/
def c6e1 : ScheduleEntry := { next_time_ns := 100, priority := 1, poll_id := 1 }

/-- The second entry of the C6 tie. -/
def c6e2 : ScheduleEntry := { next_time_ns := 100, priority := 1, poll_id := 2 }

/-- Modbus client state right after a read whose transport call failed:
the allocated transaction id 1 is left in the in-flight table. -/
def c8AfterFail : ModbusClientState := readInflightStep false { transaction_id := 1, inflight := [] }

/-- The same client after 65534 further serialised reads whose transport
succeeded: the 16-bit counter has wrapped all the way around. -/
def c8AtWrap : ModbusClientState := iterateFn (readInflightStep true) 65534 c8AfterFail

/-- An 8-byte response frame: transaction id 1, protocol id 0, length 2,
unit id 1, and a single PDU byte 0x83 (exception flag set, code missing). -/
def c10Response : List Nat := [0x00, 0x01, 0x00, 0x00, 0x00, 0x02, 0x01, 0x83]

-- ============================================================================
-- Theorems
-- ============================================================================

/-- Feeding 75 to the Normal S4 alarm changes nothing and emits nothing. -/
theorem c2_step75 :
    evaluateAlarms "temperature" 75 0 [("high_temp", c2Tracking)] =
      ([("high_temp", c2Tracking)], []) := by
  norm_num +decide [evaluateAlarms, alarmLoopBody, evaluateCondition, c2Tracking, c2Alarm,
    AlarmConfig.default]

/-- Feeding 81 trips the S4 alarm: state becomes Active, one event with
threshold 80 at timestamp index 1. -/
theorem c2_step81 :
    (evaluateAlarms "temperature" 81 1 [("high_temp", c2Tracking)]).1 =
        [("high_temp", c2ActiveTracking)] ∧
      (evaluateAlarms "temperature" 81 1 [("high_temp", c2Tracking)]).2.map alarmEventProj =
        [(.active, 81, 80, 1)] := by
  constructor
  · norm_num +decide [evaluateAlarms, alarmLoopBody, evaluateCondition, c2Tracking,
      c2ActiveTracking, c2Alarm, AlarmConfig.default]
  · norm_num +decide [evaluateAlarms, alarmLoopBody, evaluateCondition, alarmEventProj,
      c2Tracking, c2Alarm, AlarmConfig.default]

/-- Feeding 79 to the Active S4 alarm changes nothing: 79 is above the
hysteresis-lowered clear threshold 78. -/
theorem c2_step79 :
    evaluateAlarms "temperature" 79 2 [("high_temp", c2ActiveTracking)] =
      ([("high_temp", c2ActiveTracking)], []) := by
  norm_num +decide [evaluateAlarms, alarmLoopBody, evaluateCondition, c2ActiveTracking, c2Alarm,
    AlarmConfig.default]

/-- Feeding 77 clears the S4 alarm: one event, state Normal, value 77, at
timestamp index 3. -/
theorem c2_step77 :
    (evaluateAlarms "temperature" 77 3 [("high_temp", c2ActiveTracking)]).1 =
        [("high_temp", c2ClearedTracking)] ∧
      (evaluateAlarms "temperature" 77 3 [("high_temp", c2ActiveTracking)]).2.map alarmEventProj =
        [(.normal, 77, 80, 3)] := by
  constructor
  · norm_num +decide [evaluateAlarms, alarmLoopBody, evaluateCondition, c2ActiveTracking,
      c2ClearedTracking, c2Alarm, AlarmConfig.default]
  · norm_num +decide [evaluateAlarms, alarmLoopBody, evaluateCondition, alarmEventProj,
      c2ActiveTracking, c2Alarm, AlarmConfig.default]

/-- Claim C2: for every enabled GreaterThan alarm with debounce 0, once
Active the alarm does not transition back to Normal while the value stays
above `threshold_hi − hysteresis`; and feeding 75, 81, 79, 77 to the
GT/hi=80/hysteresis=2 alarm produces exactly two alarm events — the
transition to Active at 81 (threshold 80, index 1) and the transition to
Normal at 77 (index 3) — while the 79 at index 2 produces no transition. -/
theorem c2_gt_hysteresis :
    (∀ (tr : AlarmTracking) (v : ℚ) (ts : Nat),
        tr.config.enabled = true →
        tr.config.condition = .greaterThan →
        tr.debounce_until_ns = none →
        tr.state = .active →
        tr.config.threshold_hi - tr.config.hysteresis < v →
        alarmLoopBody tr.config.register_name v ts tr = (tr, none)) ∧
      c2Run.2.map alarmEventProj = [(.active, 81, 80, 1), (.normal, 77, 80, 3)] := by
  constructor
  · intro tr v ts hen hcond hdeb hst hv
    unfold alarmLoopBody
    rw [hdeb]
    simp [hen, hst, hcond, evaluateCondition, hv]
  · have h75 := c2_step75
    have h79 := c2_step79
    have h81 := c2_step81
    have h77 := c2_step77
    simp [c2Run, feedAlarmValues, h75, h79, h81.1, h81.2, h77.1, h77.2]

/-- Witness for the hysteresis conjunct of C2 at the concrete Active S4
alarm and value 79. -/
theorem c2_gt_hysteresis_witness :
    alarmLoopBody c2ActiveTracking.config.register_name 79 2 c2ActiveTracking =
      (c2ActiveTracking, none) :=
  c2_gt_hysteresis.1 c2ActiveTracking 79 2 rfl rfl rfl rfl
    (by norm_num [c2ActiveTracking, c2Alarm, AlarmConfig.default])

/-- Claim C1 (code_bug evidence): with uint16 registers (scale 0.1, offset
0) at addresses 100 and 101 of device "p", processing words [100, 200]
from start address 100 emits exactly ONE value event — value 10 for the
register at address 100. The `break` at `emitter/mod.rs` line 233 leaves
the loop after the first emitted event, so the register at address 101 is
never visited and the second event (value 20) required by the claim is
not produced. -/
theorem c1_break_emits_single_event :
    (processRaw c1State "p" 100 [100, 200] .good none 0).2.1.map (fun e => (e.name, e.value)) =
        [("r100", 10)] ∧
      (processRaw c1State "p" 100 [100, 200] .good none 0).2.1.length = 1 := by
  constructor
  · norm_num [processRaw, processRawLoop, c1State, c1Register, RegisterConfig.default,
      convertRaw, RegisterValue.scaled, RegisterValue.as_f64, generateTopic, assocUpdate,
      evaluateAlarms, List.lookup]
  · norm_num [processRaw, processRawLoop, c1State, c1Register, RegisterConfig.default,
      convertRaw, RegisterValue.scaled, RegisterValue.as_f64, generateTopic, assocUpdate,
      evaluateAlarms, List.lookup]

/-- Lookup after an in-place association-list update under the same key. -/
theorem lookup_assocUpdate_self {α : Type} (k : Nat) (v : α) (l : List (Nat × α)) :
    List.lookup k (assocUpdate k v l) = (List.lookup k l).map (fun _ => v) := by
  induction l with
  | nil => rfl
  | cons p rest ih =>
    obtain ⟨k', v'⟩ := p
    by_cases h : k = k'
    · subst h
      simp [assocUpdate, List.lookup_cons] at ih ⊢
    · have h' : ¬ (k' = k) := fun e => h e.symm
      have hb : (k == k') = false := beq_false_of_ne h
      simp [assocUpdate, List.lookup_cons, h', hb] at ih ⊢
      exact ih

/-- `Rat.floor` agrees with the ambient `Int.floor` on `ℚ`. -/
theorem ratFloor_eq_intFloor (q : ℚ) : Rat.floor q = ⌊q⌋ := by
  rw [Rat.floor_def', ← Rat.floor_def]

/-- Evaluation rule for the `as u32` truncation on a quotient of
naturals. -/
theorem ratTruncToNat_natCast_div (n d : ℕ) :
    ratTruncToNat ((n : ℚ) / (d : ℚ)) = n / d := by
  unfold ratTruncToNat
  rw [ratFloor_eq_intFloor, Rat.floor_natCast_div_natCast, ← Int.ofNat_ediv]
  exact Int.toNat_natCast _

/-- Evaluation rule for `u32OfRat` on a quotient of naturals. -/
theorem u32OfRat_natCast_div (n d : ℕ) :
    u32OfRat ((n : ℚ) / (d : ℚ)) = min (n / d) 4294967295 := by
  unfold u32OfRat
  rw [ratTruncToNat_natCast_div]

/-- `1 as u32 = 1`. -/
theorem u32OfRat_eval_one : u32OfRat ((1 : ℚ)) = 1 := by
  have h : (1 : ℚ) = ((1 : ℕ) : ℚ) / ((1 : ℕ) : ℚ) := by norm_num
  rw [h, u32OfRat_natCast_div]; omega

/-- `1.5 as u32 = 1`. -/
theorem u32OfRat_eval_3half : u32OfRat ((3 / 2 : ℚ)) = 1 := by
  have h : (3 / 2 : ℚ) = ((3 : ℕ) : ℚ) / ((2 : ℕ) : ℚ) := by norm_num
  rw [h, u32OfRat_natCast_div]; omega

/-- `2.25 as u32 = 2`. -/
theorem u32OfRat_eval_9quarter : u32OfRat ((9 / 4 : ℚ)) = 2 := by
  have h : (9 / 4 : ℚ) = ((9 : ℕ) : ℚ) / ((4 : ℕ) : ℚ) := by norm_num
  rw [h, u32OfRat_natCast_div]; omega

/-- `3.375 as u32 = 3`. -/
theorem u32OfRat_eval_27eighth : u32OfRat ((27 / 8 : ℚ)) = 3 := by
  have h : (27 / 8 : ℚ) = ((27 : ℕ) : ℚ) / ((8 : ℕ) : ℚ) := by norm_num
  rw [h, u32OfRat_natCast_div]; omega

/-- `1500 as u32 = 1500`. -/
theorem u32OfRat_eval_1500 : u32OfRat ((1500 : ℚ)) = 1500 := by
  have h : (1500 : ℚ) = ((1500 : ℕ) : ℚ) / ((1 : ℕ) : ℚ) := by norm_num
  rw [h, u32OfRat_natCast_div]; omega

/-- `2250 as u32 = 2250`. -/
theorem u32OfRat_eval_2250 : u32OfRat ((2250 : ℚ)) = 2250 := by
  have h : (2250 : ℚ) = ((2250 : ℕ) : ℚ) / ((1 : ℕ) : ℚ) := by norm_num
  rw [h, u32OfRat_natCast_div]; omega

/-- `3375 as u32 = 3375`. -/
theorem u32OfRat_eval_3375 : u32OfRat ((3375 : ℚ)) = 3375 := by
  have h : (3375 : ℚ) = ((3375 : ℕ) : ℚ) / ((1 : ℕ) : ℚ) := by norm_num
  rw [h, u32OfRat_natCast_div]; omega

/-- `7.5 as u32 = 7`. -/
theorem u32OfRat_eval_half15 : u32OfRat ((15 / 2 : ℚ)) = 7 := by
  have h : (15 / 2 : ℚ) = ((15 : ℕ) : ℚ) / ((2 : ℕ) : ℚ) := by norm_num
  rw [h, u32OfRat_natCast_div]; omega

/-- `10.5 as u32 = 10`. -/
theorem u32OfRat_eval_half21 : u32OfRat ((21 / 2 : ℚ)) = 10 := by
  have h : (21 / 2 : ℚ) = ((21 : ℕ) : ℚ) / ((2 : ℕ) : ℚ) := by norm_num
  rw [h, u32OfRat_natCast_div]; omega

/-- After the first S5 failure the interval is 1500 ms. -/
theorem c3State1_eq :
    c3State1 =
      { status := [(1, { current_interval_ms := 1500, last_poll_ns := 0, next_poll_ns := 0,
                         polls_total := 1, polls_success := 0, polls_failed := 1,
                         avg_latency_us := 0, consecutive_failures := 1 })],
        items := [(1, { poll_id := 1, device_id := "d", name := "r",
                        register_type := .holding, address := 0, count := 1,
                        base_interval_ms := 1000, current_interval_ms := 1500,
                        priority := 1, enabled := true })] } := by
  norm_num [c3State1, c3State0, pollComplete, c3Config, c3Fail, c3Status, c3Item,
    assocUpdate, List.lookup, u32OfRat_eval_1500]

/-- After the second S5 failure the interval is 2250 ms. -/
theorem c3State2_eq :
    c3State2 =
      { status := [(1, { current_interval_ms := 2250, last_poll_ns := 0, next_poll_ns := 0,
                         polls_total := 2, polls_success := 0, polls_failed := 2,
                         avg_latency_us := 0, consecutive_failures := 2 })],
        items := [(1, { poll_id := 1, device_id := "d", name := "r",
                        register_type := .holding, address := 0, count := 1,
                        base_interval_ms := 1000, current_interval_ms := 2250,
                        priority := 1, enabled := true })] } := by
  unfold c3State2
  rw [c3State1_eq]
  norm_num [pollComplete, c3Config, c3Fail, assocUpdate, List.lookup, u32OfRat_eval_2250]

/-- After the third S5 failure the interval is 3375 ms. -/
theorem c3State3_eq :
    c3State3 =
      { status := [(1, { current_interval_ms := 3375, last_poll_ns := 0, next_poll_ns := 0,
                         polls_total := 3, polls_success := 0, polls_failed := 3,
                         avg_latency_us := 0, consecutive_failures := 3 })],
        items := [(1, { poll_id := 1, device_id := "d", name := "r",
                        register_type := .holding, address := 0, count := 1,
                        base_interval_ms := 1000, current_interval_ms := 3375,
                        priority := 1, enabled := true })] } := by
  unfold c3State3
  rw [c3State2_eq]
  norm_num [pollComplete, c3Config, c3Fail, assocUpdate, List.lookup, u32OfRat_eval_3375]

/-- The subsequent S5 success resets the interval to 1000 ms and clears
the consecutive-failure counter. -/
theorem c3State4_eq :
    c3State4 =
      { status := [(1, { current_interval_ms := 1000, last_poll_ns := 0, next_poll_ns := 0,
                         polls_total := 4, polls_success := 1, polls_failed := 3,
                         avg_latency_us := 0, consecutive_failures := 0 })],
        items := [(1, { poll_id := 1, device_id := "d", name := "r",
                        register_type := .holding, address := 0, count := 1,
                        base_interval_ms := 1000, current_interval_ms := 1000,
                        priority := 1, enabled := true })] } := by
  unfold c3State4
  rw [c3State3_eq]
  norm_num [pollComplete, c3Config, c3Succ, assocUpdate, List.lookup]

/-- Two failures from a 5 ms base yield 7 ms then 10 ms (truncation at
each step: 7.5 → 7, 10.5 → 10). -/
theorem c3bState2_eq :
    c3bState2 =
      { status := [(1, { current_interval_ms := 10, last_poll_ns := 0, next_poll_ns := 0,
                         polls_total := 2, polls_success := 0, polls_failed := 2,
                         avg_latency_us := 0, consecutive_failures := 2 })],
        items := [(1, { poll_id := 1, device_id := "d", name := "r",
                        register_type := .holding, address := 0, count := 1,
                        base_interval_ms := 5, current_interval_ms := 10,
                        priority := 1, enabled := true })] } := by
  have h1 :
      pollComplete c3Config c3bState0 (c3Fail 1) =
        { status := [(1, { current_interval_ms := 7, last_poll_ns := 0, next_poll_ns := 0,
                           polls_total := 1, polls_success := 0, polls_failed := 1,
                           avg_latency_us := 0, consecutive_failures := 1 })],
          items := [(1, { poll_id := 1, device_id := "d", name := "r",
                          register_type := .holding, address := 0, count := 1,
                          base_interval_ms := 5, current_interval_ms := 7,
                          priority := 1, enabled := true })] } := by
    norm_num [c3bState0, pollComplete, c3Config, c3Fail, c3Status, c3bItem, c3Item,
      assocUpdate, List.lookup, u32OfRat_eval_half15]
  unfold c3bState2
  rw [h1]
  norm_num [pollComplete, c3Config, c3Fail, assocUpdate, List.lookup, u32OfRat_eval_half21]

/-- Claim C3 (amended): the backoff is iterated with `u32` truncation at
each failure — after each failure `current_interval = min(max_backoff,
(current · factor) as u32)` — not the closed form `min(max_backoff,
base · factor^k)`. Concretely (S5): three failures yield 1500, 2250, 3375
ms from base 1000 ms, and a subsequent success resets to 1000 ms and
clears `consecutive_failures`. -/
theorem c3_adaptive_backoff_iterated :
    (itemInterval c3State1 1 = some 1500 ∧ itemInterval c3State2 1 = some 2250 ∧
      itemInterval c3State3 1 = some 3375 ∧ itemInterval c3State4 1 = some 1000 ∧
      (List.lookup 1 c3State4.status).map (fun s => s.consecutive_failures) = some 0 ∧
      (List.lookup 1 c3State3.status).map (fun s => s.consecutive_failures) = some 3) ∧
    (∀ (cfg : SchedulerConfig) (st : SchedulerMaps) (c : PollComplete)
        (item : PollItem) (s : PollStatus),
        cfg.adaptive_enabled = true → c.success = false →
        List.lookup c.poll_id st.status = some s →
        List.lookup c.poll_id st.items = some item →
        itemInterval (pollComplete cfg st c) c.poll_id =
          some (min (u32OfRat ((item.current_interval_ms : ℚ) * cfg.backoff_factor))
            cfg.max_backoff_interval_ms)) ∧
    (∀ (cfg : SchedulerConfig) (st : SchedulerMaps) (c : PollComplete)
        (item : PollItem) (s : PollStatus),
        cfg.adaptive_enabled = true → c.success = true →
        List.lookup c.poll_id st.status = some s →
        List.lookup c.poll_id st.items = some item →
        itemInterval (pollComplete cfg st c) c.poll_id = some item.base_interval_ms ∧
          (List.lookup c.poll_id (pollComplete cfg st c).status).map
            (fun s => s.consecutive_failures) = some 0) := by
  refine ⟨?_, ?_, ?_⟩
  · rw [c3State1_eq, c3State2_eq, c3State3_eq, c3State4_eq]
    simp [itemInterval, List.lookup]
  · intro cfg st c item s hA hF hs hi
    simp only [pollComplete, itemInterval, hs, hi, hF, hA]
    simp [lookup_assocUpdate_self, hi]
  · intro cfg st c item s hA hT hs hi
    simp only [pollComplete, itemInterval, hs, hi, hT, hA]
    constructor
    · simp [lookup_assocUpdate_self, hi]
    · simp [lookup_assocUpdate_self, hs]

/-- Witness for the failure-step conjunct of C3 at the concrete S5 state. -/
theorem c3_adaptive_backoff_iterated_witness :
    itemInterval (pollComplete c3Config c3State0 (c3Fail 1)) (c3Fail 1).poll_id =
      some (min (u32OfRat ((c3Item.current_interval_ms : ℚ) * c3Config.backoff_factor))
        c3Config.max_backoff_interval_ms) :=
  c3_adaptive_backoff_iterated.2.1 c3Config c3State0 (c3Fail 1) c3Item c3Status rfl rfl rfl rfl

/-- Counterexample to C3 as stated: with base 5 ms, factor 1.5, max 10000
ms, two consecutive failures leave `current_interval_ms = 10`, while the
claim's closed form `min(max_backoff, base · factor²)` is 11.25 (11 after
truncation) — the code truncates to `u32` at each step, so the two
disagree. -/
theorem c3_closed_form_false :
    itemInterval c3bState2 1 = some 10 ∧
      min ((10000 : ℚ)) ((5 : ℚ) * (3 / 2) ^ 2) = 45 / 4 ∧
      ((10 : ℚ) ≠ 45 / 4) ∧
      ratTruncToNat (min ((10000 : ℚ)) ((5 : ℚ) * (3 / 2) ^ 2)) = 11 := by
  refine ⟨?_, by norm_num, by norm_num, ?_⟩
  · rw [c3bState2_eq]
    simp [itemInterval, List.lookup]
  · have h : min ((10000 : ℚ)) ((5 : ℚ) * (3 / 2) ^ 2) = ((45 : ℕ) : ℚ) / ((4 : ℕ) : ℚ) := by
      norm_num
    rw [h, ratTruncToNat_natCast_div]

/-- The implementation's hex digit table agrees with the spec's lowercase
table on all nibbles. -/
theorem hexDigitChar_eq_spec : ∀ n : Nat, n < 16 → hexDigitChar n = hexDigitSpec n := by
  decide

/-- `hex::encode` refines the spec-worded lowercase hex encoding. -/
theorem hexEncode_eq_hexLowercaseSpec (bytes : List Nat) :
    hexEncode bytes = hexLowercaseSpec bytes := by
  unfold hexEncode hexLowercaseSpec
  congr 1
  induction bytes with
  | nil => rfl
  | cons b bs ih =>
    simp only [List.map_cons, List.flatten_cons, List.foldr_cons, List.cons_append,
      List.nil_append]
    rw [hexDigitChar_eq_spec ((b % 256) / 16) (by omega), hexDigitChar_eq_spec (b % 16) (by omega),
      ih]

/-- Claim C4 (amended): every value-event topic equals
`lex://estream/sys/industrial/{h}/device/{device_id}/{register_name}`
where `{h}` is the lowercase hex of the first 8 bytes (16 hex characters)
of the 32-byte gateway id. -/
theorem c4_topic_hex_of_first_8_bytes (cfg : EmitterConfig) (rc : RegisterConfig) :
    generateTopic cfg rc =
      "lex://estream/sys/industrial/" ++ hexLowercaseSpec (cfg.gateway_id.take 8) ++
        "/device/" ++ rc.device_id ++ "/" ++ rc.name := by
  unfold generateTopic
  rw [hexEncode_eq_hexLowercaseSpec]

/-- Counterexample to C4 as stated: with gateway id bytes 0x00..0x1f, the
generated topic carries the hex of the first 8 bytes (16 characters), not
the hex of the first 16 bytes (32 characters) the claim requires. -/
theorem c4_topic_not_first_16_bytes :
    generateTopic c4EmitterConfig c4Register =
        "lex://estream/sys/industrial/0001020304050607/device/p/t" ∧
      hexEncode (c4GatewayId.take 16) = "000102030405060708090a0b0c0d0e0f" ∧
      generateTopic c4EmitterConfig c4Register ≠
        "lex://estream/sys/industrial/000102030405060708090a0b0c0d0e0f/device/p/t" := by
  refine ⟨by decide, by decide, by decide⟩

/-- Claim C5 (amended): `validate` (and hence `build`) rejects more than
10 devices and more than 256 registers with `LimitExceeded{name, max,
requested}` before the gateway starts; no alarm-count limit is enforced. -/
theorem c5_device_register_limits :
    (∀ c : GatewayConfig, 10 < c.devices.length →
        c.validate = .error (.limitExceeded ("devices") 10 c.devices.length)) ∧
      (∀ c : GatewayConfig, c.devices.length ≤ 10 → 256 < c.registers.length →
        c.validate = .error (.limitExceeded ("registers") 256 c.registers.length)) ∧
      (∀ (b : GatewayConfigBuilder) (cfg : GatewayConfig), b.build = .ok cfg →
        cfg.validate = .ok ()) := by
  refine ⟨?_, ?_, ?_⟩
  · intro c h
    unfold GatewayConfig.validate
    rw [if_pos h]
  · intro c h1 h2
    unfold GatewayConfig.validate
    rw [if_neg (by omega), if_pos h2]
  · intro b cfg h
    unfold GatewayConfigBuilder.build at h
    cases hb : b.gateway_id with
    | none =>
      rw [hb] at h
      exact absurd h (by simp)
    | some gid =>
      rw [hb] at h
      dsimp only at h
      split at h
      · exact absurd h (by simp)
      · next u heq =>
        cases h
        cases u
        exact heq

/-- Witness for the device-limit conjunct of C5 at an 11-device
configuration. -/
theorem c5_device_register_limits_witness :
    c5Config11.validate = .error (.limitExceeded ("devices") 10 (c5Config11.devices.length)) :=
  c5_device_register_limits.1 c5Config11 (by decide)

/-- Counterexample to C5 as stated: a configuration with 65 alarms (more
than 64) passes `validate` — the source checks only devices and
registers. -/
theorem c5_validate_accepts_65_alarms :
    (64 < c5Config65.alarms.length) ∧ c5Config65.validate = .ok () := by
  refine ⟨by decide, rfl⟩

/-- Claim C6 (amended): the heap comparison orders by `next_time_ns`
ascending, then `priority` descending — and nothing else: two entries
equal in both compare `Equal` whatever their `poll_id`. -/
theorem c6_heap_order_characterization (a b : ScheduleEntry) :
    (ScheduleEntry.cmp a b = .gt ↔
        a.next_time_ns < b.next_time_ns ∨
          (a.next_time_ns = b.next_time_ns ∧ b.priority < a.priority)) ∧
      (ScheduleEntry.cmp a b = .eq ↔
        a.next_time_ns = b.next_time_ns ∧ a.priority = b.priority) := by
  unfold ScheduleEntry.cmp
  rcases Nat.lt_trichotomy a.next_time_ns b.next_time_ns with h | h | h
  · have hc : compare b.next_time_ns a.next_time_ns = .gt := Nat.compare_eq_gt.mpr h
    rw [hc]
    simp [Ordering.then]
    omega
  · have hc : compare b.next_time_ns a.next_time_ns = .eq := Nat.compare_eq_eq.mpr h.symm
    rw [hc]
    rcases Nat.lt_trichotomy a.priority b.priority with hp | hp | hp
    · have hcp : compare a.priority b.priority = .lt := Nat.compare_eq_lt.mpr hp
      rw [hcp]
      simp [Ordering.then]
      omega
    · have hcp : compare a.priority b.priority = .eq := Nat.compare_eq_eq.mpr hp
      rw [hcp]
      simp [Ordering.then]
      omega
    · have hcp : compare a.priority b.priority = .gt := Nat.compare_eq_gt.mpr hp
      rw [hcp]
      simp [Ordering.then]
      omega
  · have hc : compare b.next_time_ns a.next_time_ns = .lt := Nat.compare_eq_lt.mpr h
    rw [hc]
    simp [Ordering.then]
    omega

/-- Counterexample to C6 as stated: two entries with equal `next_time_ns`
and equal `priority` but different `poll_id` compare `Equal` — the entry
with the smaller poll id is not greater in the heap order, so the
tie-break the claim describes does not exist. -/
theorem c6_no_poll_id_tiebreak :
    c6e1.poll_id < c6e2.poll_id ∧ ScheduleEntry.cmp c6e1 c6e2 = .eq ∧
      ScheduleEntry.cmp c6e1 c6e2 ≠ .gt := by
  refine ⟨by decide, by decide, by decide⟩

/-- Claim C7 (amended): the sleep delay after failed attempt `k` is
`reconnect_delay · (1.5^(k−1) as u32)` capped at 30 s — the geometric
factor is truncated to an integer before the multiplication. In
particular the delay after the second failed attempt equals
`reconnect_delay` itself (factor ⌊1.5⌋ = 1); with a 1 s delay the first
four attempts sleep 1000, 1000, 2000, 3000 ms, and a 20 s delay at
attempt 4 hits the 30 s cap. -/
theorem c7_reconnect_delay_truncated_factor :
    (∀ rd : Nat, reconnectDelayMs rd 2 = min rd 30000) ∧
      reconnectDelayMs 1000 1 = 1000 ∧ reconnectDelayMs 1000 2 = 1000 ∧
      reconnectDelayMs 1000 3 = 2000 ∧ reconnectDelayMs 1000 4 = 3000 ∧
      reconnectDelayMs 20000 4 = 30000 := by
  refine ⟨?_, ?_, ?_, ?_, ?_, ?_⟩
  · intro rd
    unfold reconnectDelayMs
    norm_num [u32OfRat_eval_3half]
  · unfold reconnectDelayMs
    norm_num [u32OfRat_eval_one]
  · unfold reconnectDelayMs
    norm_num [u32OfRat_eval_3half]
  · unfold reconnectDelayMs
    norm_num [u32OfRat_eval_9quarter]
  · unfold reconnectDelayMs
    norm_num [u32OfRat_eval_27eighth]
  · unfold reconnectDelayMs
    norm_num [u32OfRat_eval_27eighth]

/-- Counterexample to C7 as stated: with `reconnect_delay` = 1000 ms the
delay after the second failed attempt is 1000 ms, not the
`1000 · 1.5^(2−1) = 1500` ms the claim requires. -/
theorem c7_delay_not_geometric :
    reconnectDelayMs 1000 2 = 1000 ∧
      min ((1000 : ℚ) * (3 / 2) ^ (2 - 1)) 30000 = 1500 ∧ ((1000 : ℚ) ≠ 1500) := by
  refine ⟨?_, by norm_num, by norm_num⟩
  unfold reconnectDelayMs
  norm_num [u32OfRat_eval_3half]

/-- One serialised read with a transport-successful `send_receive`, from a
mid-range counter with only transaction id 1 leaked in flight: the read
uses id `c`, removes it again, and advances the counter. -/
theorem c8_step_true_mid (c : Nat) (h2 : 2 ≤ c) (h3 : c ≤ 65535) :
    readInflightStep true { transaction_id := c, inflight := [1] } =
      { transaction_id := (c + 1) % 65536, inflight := [1] } := by
  have hc : c % 65536 = c := Nat.mod_eq_of_lt (by omega)
  have hne : ¬ (c = 0) := by omega
  have hne1 : ¬ (c = 1) := by omega
  have hmem : ¬ (c ∈ ([1] : List Nat)) := by simp; omega
  have h1c : (1 : Nat) ≠ c := by omega
  simp [readInflightStep, nextTransactionId, inflightInsert, inflightRemove, hc, hne, hne1,
    hmem, h1c]

/-- After `j ≤ 65534` transport-successful reads from counter 2 with id 1
leaked, the counter is `(2 + j) % 2^16` and id 1 is still in flight. -/
theorem c8_steps (j : Nat) (h : j ≤ 65534) :
    iterateFn (readInflightStep true) j { transaction_id := 2, inflight := [1] } =
      { transaction_id := (2 + j) % 65536, inflight := [1] } := by
  induction j with
  | zero => rfl
  | succ j ih =>
    rw [iterateFn, ih (by omega)]
    have hmod : (2 + j) % 65536 = 2 + j := Nat.mod_eq_of_lt (by omega)
    rw [hmod, c8_step_true_mid (2 + j) (by omega) (by omega)]
    congr 1

/-- Claim C8 (amended): `next_transaction_id` never returns 0, for any
counter value including across the 16-bit wrap; and when every read's
transport call succeeds (so the in-flight entry is removed before the
next serialised read), a read from an empty in-flight table never inserts
an id that is already present and leaves the table empty again. -/
theorem c8_transaction_ids :
    (∀ counter : Nat, (nextTransactionId counter).1 ≠ 0) ∧
      (∀ st : ModbusClientState, st.inflight = [] →
        (nextTransactionId st.transaction_id).1 ∉ st.inflight ∧
          (readInflightStep true st).inflight = []) := by
  constructor
  · intro c
    by_cases h : c % 65536 = 0
    · simp [nextTransactionId, h]
      omega
    · simp [nextTransactionId, h]
  · intro st h
    constructor
    · rw [h]
      exact List.not_mem_nil _
    · simp [readInflightStep, inflightInsert, inflightRemove, h]

/-- Witness for C8 at the fresh client state (counter 1, no in-flight
entries). -/
theorem c8_transaction_ids_witness :
    (nextTransactionId 1).1 ≠ 0 ∧
      (readInflightStep true { transaction_id := 1, inflight := [] }).inflight = [] :=
  ⟨c8_transaction_ids.1 1,
    (c8_transaction_ids.2 { transaction_id := 1, inflight := [] } rfl).2⟩

/-- Counterexample to C8 as stated: after one read whose transport call
failed (leaking transaction id 1 into the in-flight table) and 65534
further successful serialised reads, the 16-bit counter has wrapped and
the next read's transaction id is 1 — an id still present in the
in-flight table is handed out and inserted again before any removal. -/
theorem c8_inflight_reuse_after_wrap :
    c8AtWrap.inflight = [1] ∧
      (nextTransactionId c8AtWrap.transaction_id).1 ∈ c8AtWrap.inflight := by
  have h0 : c8AfterFail = { transaction_id := 2, inflight := [1] } := rfl
  have hw : c8AtWrap = { transaction_id := 0, inflight := [1] } := by
    unfold c8AtWrap
    rw [h0, c8_steps 65534 (by omega)]
  rw [hw]
  refine ⟨rfl, ?_⟩
  simp [nextTransactionId]

/-- Claim C9 (confirmed): the receiver returned by `PollScheduler::new`
reads channel 1, whose only sender is dropped inside `new`, while every
trigger `run` sends goes to channel 0 (the internal `trigger_tx`); so no
trigger sequence ever yields a message on the returned receiver. -/
theorem c9_returned_receiver_yields_nothing :
    (∀ triggers : List PollTrigger,
        messagesOn pollSchedulerNew.returned_rx_channel (runSentMessages triggers) = []) ∧
      pollSchedulerNew.stored_rx_channel = pollSchedulerNew.trigger_tx_channel ∧
      pollSchedulerNew.returned_rx_channel ≠ pollSchedulerNew.trigger_tx_channel := by
  refine ⟨?_, rfl, by decide⟩
  intro ts
  induction ts with
  | nil => rfl
  | cons t rest ih =>
    simp [runSentMessages, messagesOn, pollSchedulerNew] at ih ⊢

/-- Claim C10 (confirmed): the 8-byte frame `00 01 00 00 00 02 01 83`
passes `parse_mbap` (length ≥ 8, protocol id 0) with transaction id 1 and
a one-byte PDU, and the response path of `read` then panics on the
out-of-bounds `pdu[1]` index instead of returning `InvalidResponse`. -/
theorem c10_read_panics_on_8_byte_response :
    c10Response.length = 8 ∧ parseMbap c10Response = .ok (1, 1, [0x83]) ∧
      readParseResponse 1 c10Response = .panic :=
  ⟨rfl, rfl, rfl⟩
